import Mathlib

/-!
Verification of the ESPResSo computational-core specification against the
source code.  Doubles are modelled as exact rationals (every IEEE double is a
rational number and all arithmetic appearing in the verified fragments is
exact in the claims under study); Euclidean norms, which are irrational in
general, are passed as explicit parameters together with their defining
equation where a claim needs it.
-/

/-- A 3-vector of rationals, modelling Utils::Vector3d. -/
structure Vec3 where
  x : ℚ
  y : ℚ
  z : ℚ
deriving DecidableEq, Repr

instance : Add Vec3 where
  add a b := ⟨a.x + b.x, a.y + b.y, a.z + b.z⟩

instance : Sub Vec3 where
  sub a b := ⟨a.x - b.x, a.y - b.y, a.z - b.z⟩

instance : Zero Vec3 where
  zero := ⟨0, 0, 0⟩

instance : SMul ℚ Vec3 where
  smul c a := ⟨c * a.x, c * a.y, c * a.z⟩

/-- Dot product of two 3-vectors. -/
def Vec3.dot (a b : Vec3) : ℚ := a.x * b.x + a.y * b.y + a.z * b.z

/-- Squared Euclidean norm, modelling Utils::Vector3d::norm2. -/
def Vec3.norm2 (a : Vec3) : ℚ := a.dot a

theorem Vec3.smul_def (c : ℚ) (a : Vec3) : c • a = ⟨c * a.x, c * a.y, c * a.z⟩ := rfl

theorem Vec3.sub_def (a b : Vec3) : a - b = ⟨a.x - b.x, a.y - b.y, a.z - b.z⟩ := rfl

theorem Vec3.zero_smul (a : Vec3) : (0 : ℚ) • a = 0 := by
  simp [Vec3.smul_def]; rfl

/-! ## Quartic bond potential (src/core/bonded_interactions/quartic.hpp) -/

/-- Parameter record for the quartic bond: spring constants k0, k1, rest
length r, optional cutoff r_cut. -/
structure QuarticBondParameters where
  k0 : ℚ
  k1 : ℚ
  r : ℚ
  r_cut : ℚ
deriving DecidableEq, Repr

/-- calc_quartic_pair_force from quartic.hpp.  dx is the particle-pair
displacement and dist stands for dx.norm() (passed separately since the
norm is irrational in general).  Returns the status code and, when the bond
is not reported broken, the force written to the output parameter. -/
def calc_quartic_pair_force (ia : QuarticBondParameters) (dx : Vec3) (dist : ℚ) :
    ℤ × Option Vec3 :=
  if 0 < ia.r_cut ∧ ia.r_cut < dist then
    (1, none)
  else
    (0, some ((-((ia.k0 * (dist - ia.r) +
        ia.k1 * (dist - ia.r) * (dist - ia.r) * (dist - ia.r)) / dist)) • dx))

/-- quartic_pair_energy from quartic.hpp: same broken check, then the energy
0.5 k0 dr² + 0.25 k1 (dr²)² written to the output parameter. -/
def quartic_pair_energy (ia : QuarticBondParameters) (dx : Vec3) (dist : ℚ) :
    ℤ × Option ℚ :=
  if 0 < ia.r_cut ∧ ia.r_cut < dist then
    (1, none)
  else
    (0, some ((1 / 2) * ia.k0 * (dist - ia.r) ^ 2 +
              (1 / 4) * ia.k1 * ((dist - ia.r) ^ 2) ^ 2))

/-- Concrete quartic parameter record for the C4 counterexample:
k0 = 1, k1 = 0, r = 1, r_cut = 2. -/
def quarticCexParams : QuarticBondParameters := ⟨1, 0, 1, 2⟩

/-- Claim C4, counterexample: with r_cut = 2 > 0 a pair at distance exactly
r_cut is NOT reported broken: the return code is 0 and the force is computed
(the broken check uses a strict comparison dist > r_cut).  The claim demands
a nonzero return with no output written for every distance at or beyond
r_cut. -/
theorem quartic_at_cutoff_not_broken :
    calc_quartic_pair_force quarticCexParams ⟨2, 0, 0⟩ 2 = (0, some ⟨-1, 0, 0⟩) ∧
    quartic_pair_energy quarticCexParams ⟨2, 0, 0⟩ 2 = (0, some (1 / 2)) := by
  unfold calc_quartic_pair_force quartic_pair_energy quarticCexParams
  norm_num [Vec3.smul_def]

/-- Claim C4, amended: with r_cut > 0 both quartic entry points report the
bond broken (code 1, no output written) exactly for distances strictly
beyond r_cut; for every distance at or below r_cut (and, when r_cut ≤ 0,
for every distance) they return 0 with energy ½k0(r−r0)² + ¼k1(r−r0)⁴ and
force −(k0(r−r0) + k1(r−r0)³)/r · dx. -/
theorem quartic_pair_cutoff_spec (ia : QuarticBondParameters) (dx : Vec3) (dist : ℚ) :
    (0 < ia.r_cut → ia.r_cut < dist →
      calc_quartic_pair_force ia dx dist = (1, none) ∧
      quartic_pair_energy ia dx dist = (1, none)) ∧
    (dist ≤ ia.r_cut ∨ ia.r_cut ≤ 0 →
      calc_quartic_pair_force ia dx dist =
        (0, some ((-((ia.k0 * (dist - ia.r) + ia.k1 * (dist - ia.r) ^ 3) / dist)) • dx)) ∧
      quartic_pair_energy ia dx dist =
        (0, some ((1 / 2) * ia.k0 * (dist - ia.r) ^ 2 +
                  (1 / 4) * ia.k1 * (dist - ia.r) ^ 4))) := by
  constructor
  · intro h1 h2
    rw [calc_quartic_pair_force, quartic_pair_energy, if_pos ⟨h1, h2⟩, if_pos ⟨h1, h2⟩]
    exact ⟨rfl, rfl⟩
  · intro h
    have hna : ¬(0 < ia.r_cut ∧ ia.r_cut < dist) := by
      rcases h with h | h
      · rintro ⟨-, h2⟩; linarith
      · rintro ⟨h1, -⟩; linarith
    rw [calc_quartic_pair_force, quartic_pair_energy, if_neg hna, if_neg hna]
    constructor
    · have hfac : ia.k0 * (dist - ia.r) + ia.k1 * (dist - ia.r) * (dist - ia.r) * (dist - ia.r)
          = ia.k0 * (dist - ia.r) + ia.k1 * (dist - ia.r) ^ 3 := by ring
      rw [hfac]
    · have hen : (1 / 2) * ia.k0 * (dist - ia.r) ^ 2 + (1 / 4) * ia.k1 * ((dist - ia.r) ^ 2) ^ 2
          = (1 / 2) * ia.k0 * (dist - ia.r) ^ 2 + (1 / 4) * ia.k1 * (dist - ia.r) ^ 4 := by ring
      rw [hen]

/-- Witness for the amended C4 theorem at concrete inputs: distance 3 with
r_cut = 2 is broken. -/
theorem quartic_pair_cutoff_spec_witness :
    calc_quartic_pair_force quarticCexParams ⟨3, 0, 0⟩ 3 = (1, none) :=
  ((quartic_pair_cutoff_spec quarticCexParams ⟨3, 0, 0⟩ 3).1 (by norm_num [quarticCexParams])
    (by norm_num [quarticCexParams])).1

/-! ## Energy minimizer (src/core/minimize_energy.cpp) -/

/-- boost::algorithm::clamp: lo if x < lo, hi if hi < x, else x. -/
def boost_clamp (x lo hi : ℚ) : ℚ :=
  if x < lo then lo else if hi < x then hi else x

/-- One particle as seen by steepest_descent_step: position, accumulated
force, per-axis COORD_FIXED flags and the virtual-site flag. -/
structure SDParticle where
  pos : Vec3
  force : Vec3
  fixed0 : Bool
  fixed1 : Bool
  fixed2 : Bool
  is_virtual : Bool
deriving DecidableEq, Repr

/-- Positional update of one axis in steepest_descent_step: skipped when the
axis is fixed or the particle is a virtual site, otherwise the increment is
gamma times the force component, cropped to ±max_displacement. -/
def steepest_descent_axis (gamma max_displacement : ℚ) (fixedj : Bool)
    (is_virt : Bool) (posj forcej : ℚ) : ℚ :=
  if fixedj then posj
  else if is_virt then posj
  else posj + boost_clamp (gamma * forcej) (-max_displacement) max_displacement

/-- The positional part of steepest_descent_step for one particle. -/
def steepest_descent_step (gamma max_displacement : ℚ) (p : SDParticle) : Vec3 :=
  ⟨steepest_descent_axis gamma max_displacement p.fixed0 p.is_virtual p.pos.x p.force.x,
   steepest_descent_axis gamma max_displacement p.fixed1 p.is_virtual p.pos.y p.force.y,
   steepest_descent_axis gamma max_displacement p.fixed2 p.is_virtual p.pos.z p.force.z⟩

theorem boost_clamp_abs_le (x m : ℚ) (hm : 0 ≤ m) :
    |boost_clamp x (-m) m| ≤ m := by
  unfold boost_clamp
  split_ifs with h1 h2
  · rw [abs_neg, abs_of_nonneg hm]
  · rw [abs_of_nonneg hm]
  · rw [abs_le]
    constructor <;> linarith

/-- Claim C5: in one steepest_descent_step, every axis that is neither fixed
nor part of a virtual site moves by exactly
clamp(gamma·F_axis, −max_displacement, +max_displacement); fixed axes and
virtual-site particles stay put; and (for a nonnegative displacement cap) no
single-axis increment exceeds max_displacement in magnitude. -/
theorem steepest_descent_step_spec (gamma max_displacement : ℚ) (p : SDParticle) :
    (p.is_virtual = false →
      (p.fixed0 = false → (steepest_descent_step gamma max_displacement p).x =
        p.pos.x + boost_clamp (gamma * p.force.x) (-max_displacement) max_displacement) ∧
      (p.fixed1 = false → (steepest_descent_step gamma max_displacement p).y =
        p.pos.y + boost_clamp (gamma * p.force.y) (-max_displacement) max_displacement) ∧
      (p.fixed2 = false → (steepest_descent_step gamma max_displacement p).z =
        p.pos.z + boost_clamp (gamma * p.force.z) (-max_displacement) max_displacement)) ∧
    (p.is_virtual = true → steepest_descent_step gamma max_displacement p = p.pos) ∧
    (p.fixed0 = true → (steepest_descent_step gamma max_displacement p).x = p.pos.x) ∧
    (p.fixed1 = true → (steepest_descent_step gamma max_displacement p).y = p.pos.y) ∧
    (p.fixed2 = true → (steepest_descent_step gamma max_displacement p).z = p.pos.z) ∧
    (0 ≤ max_displacement →
      |(steepest_descent_step gamma max_displacement p).x - p.pos.x| ≤ max_displacement ∧
      |(steepest_descent_step gamma max_displacement p).y - p.pos.y| ≤ max_displacement ∧
      |(steepest_descent_step gamma max_displacement p).z - p.pos.z| ≤ max_displacement) := by
  have haxis : ∀ (fj iv : Bool) (pj fo : ℚ), 0 ≤ max_displacement →
      |steepest_descent_axis gamma max_displacement fj iv pj fo - pj| ≤ max_displacement := by
    intro fj iv pj fo hm
    unfold steepest_descent_axis
    split_ifs <;> simp only [sub_self, abs_zero, add_sub_cancel_left]
    · exact hm
    · exact hm
    · exact boost_clamp_abs_le _ _ hm
  refine ⟨?_, ?_, ?_, ?_, ?_, ?_⟩
  · intro hv
    refine ⟨?_, ?_, ?_⟩
    · intro h0
      simp [steepest_descent_step, steepest_descent_axis, hv, h0]
    · intro h1
      simp [steepest_descent_step, steepest_descent_axis, hv, h1]
    · intro h2
      simp [steepest_descent_step, steepest_descent_axis, hv, h2]
  · intro hv
    simp [steepest_descent_step, steepest_descent_axis, hv]
  · intro h0
    simp [steepest_descent_step, steepest_descent_axis, h0]
  · intro h1
    simp [steepest_descent_step, steepest_descent_axis, h1]
  · intro h2
    simp [steepest_descent_step, steepest_descent_axis, h2]
  · intro hm
    exact ⟨haxis _ _ _ _ hm, haxis _ _ _ _ hm, haxis _ _ _ _ hm⟩

/-- Witness for the C5 theorem: a free particle with force (4, 0, 0),
gamma = 1 and max_displacement = 1 moves by the cropped increment 1 along
the x axis. -/
theorem steepest_descent_step_spec_witness :
    (steepest_descent_step 1 1 ⟨⟨0, 0, 0⟩, ⟨4, 0, 0⟩, false, false, false, false⟩).x =
      (0 : ℚ) + boost_clamp (1 * 4) (-1) 1 :=
  ((steepest_descent_step_spec 1 1
      ⟨⟨0, 0, 0⟩, ⟨4, 0, 0⟩, false, false, false, false⟩).1 rfl).1 rfl

/-! ## Layered cell system (src/core/layered.cpp) -/

/-- layered_position_to_cell.  Inputs: the per-rank layer count, whether the
rank has a neighbor below / above (LAYERED_BTM_NEIGHBOR /
LAYERED_TOP_NEIGHBOR), the rank's local z-origin (local_geo.my_left()[2]),
the reciprocal layer thickness layer_h_i, and the z-coordinate of the
position.  Returns the cell index, or none when the particle belongs to
another rank. -/
def layered_position_to_cell (n_layers : ℤ) (btm_neighbor top_neighbor : Bool)
    (my_left_z layer_h_i posz : ℚ) : Option ℤ :=
  let cpos : ℤ := ⌊(posz - my_left_z) * layer_h_i⌋ + 1
  if cpos < 1 then
    if !btm_neighbor then some 1 else none
  else if n_layers < cpos then
    if !top_neighbor then some n_layers else none
  else
    some cpos

/-- Claim C6: layered_position_to_cell maps z to
floor((z − local z-origin)·(1/layer_h)) + 1; an index below 1 (above
n_layers) is clamped to 1 (n_layers) exactly when the rank has no neighbor
below (above) and otherwise no cell is returned. -/
theorem layered_position_to_cell_spec (n_layers : ℤ) (btm_neighbor top_neighbor : Bool)
    (my_left_z layer_h_i posz : ℚ) (c : ℤ)
    (hc : c = ⌊(posz - my_left_z) * layer_h_i⌋ + 1) :
    (1 ≤ c → c ≤ n_layers →
      layered_position_to_cell n_layers btm_neighbor top_neighbor my_left_z layer_h_i posz =
        some c) ∧
    (c < 1 →
      layered_position_to_cell n_layers btm_neighbor top_neighbor my_left_z layer_h_i posz =
        if btm_neighbor then none else some 1) ∧
    (1 ≤ c → n_layers < c →
      layered_position_to_cell n_layers btm_neighbor top_neighbor my_left_z layer_h_i posz =
        if top_neighbor then none else some n_layers) := by
  subst hc
  refine ⟨?_, ?_, ?_⟩
  · intro h1 h2
    unfold layered_position_to_cell
    rw [if_neg (by omega), if_neg (by omega)]
  · intro h1
    unfold layered_position_to_cell
    rw [if_pos h1]
    cases btm_neighbor <;> simp
  · intro h1 h2
    unfold layered_position_to_cell
    rw [if_neg (by omega), if_pos h2]
    cases top_neighbor <;> simp

/-- Witness for the C6 theorem: with 3 layers, origin 0, reciprocal layer
thickness 2 and z = 1/2, the index floor(1) + 1 = 2 is in range and is
returned. -/
theorem layered_position_to_cell_spec_witness :
    layered_position_to_cell 3 true true 0 2 (1 / 2) = some 2 :=
  (layered_position_to_cell_spec 3 true true 0 2 (1 / 2) 2 (by norm_num)).1
    (by norm_num) (by norm_num)

/-! ## MMM2D near-formula tuning (MMM2D_tune_near) -/

/-- Small positive error code ERROR_LARGE (cell too large for near formula). -/
def ERROR_LARGE : ℤ := 1

/-- Small positive error code ERROR_BOXL (box aspect ratio too extreme). -/
def ERROR_BOXL : ℤ := 2

/-- Small positive error code ERROR_BESSEL (no feasible Bessel cutoff). -/
def ERROR_BESSEL : ℤ := 3

/-- Small positive error code ERROR_POLY (no feasible polygamma order). -/
def ERROR_POLY : ℤ := 4

/-- Small positive error code ERROR_SMALL (cell too small, min_far < 0). -/
def ERROR_SMALL : ℤ := 6

/-- MMM2D_tune_near.  The three leading precondition guards are modelled
exactly; the transcendental Bessel and polygamma search loops that follow
are abstracted by their observable outcomes: bessel_fail stands for the loop
cap P == MAXIMAL_B_CUT being hit and poly_fail for n == MAXIMAL_POLYGAMMA.
boxl_limit stands for the double constant 3/M_SQRT2 (every double is a
rational). -/
def MMM2D_tune_near (box_l_y max_near min_far uxLy boxl_limit : ℚ)
    (bessel_fail poly_fail : Bool) : ℤ :=
  if box_l_y / 2 < max_near then ERROR_LARGE
  else if min_far < 0 then ERROR_SMALL
  else if boxl_limit ≤ uxLy then ERROR_BOXL
  else if bessel_fail then ERROR_BESSEL
  else if poly_fail then ERROR_POLY
  else 0

/-- Claim C7: MMM2D near-formula tuning returns ERROR_LARGE when
max_near > Ly/2, ERROR_SMALL when max_near ≤ Ly/2 and min_far < 0,
ERROR_BOXL when also min_far ≥ 0 but ux·Ly ≥ 3/√2, and under the three
preconditions none of these three codes is returned (only success or the
Bessel/polygamma search failures remain). -/
theorem MMM2D_tune_near_spec (box_l_y max_near min_far uxLy boxl_limit : ℚ)
    (bessel_fail poly_fail : Bool) :
    (box_l_y / 2 < max_near →
      MMM2D_tune_near box_l_y max_near min_far uxLy boxl_limit bessel_fail poly_fail =
        ERROR_LARGE) ∧
    (max_near ≤ box_l_y / 2 → min_far < 0 →
      MMM2D_tune_near box_l_y max_near min_far uxLy boxl_limit bessel_fail poly_fail =
        ERROR_SMALL) ∧
    (max_near ≤ box_l_y / 2 → 0 ≤ min_far → boxl_limit ≤ uxLy →
      MMM2D_tune_near box_l_y max_near min_far uxLy boxl_limit bessel_fail poly_fail =
        ERROR_BOXL) ∧
    (max_near ≤ box_l_y / 2 → 0 ≤ min_far → uxLy < boxl_limit →
      MMM2D_tune_near box_l_y max_near min_far uxLy boxl_limit bessel_fail poly_fail ≠
          ERROR_LARGE ∧
        MMM2D_tune_near box_l_y max_near min_far uxLy boxl_limit bessel_fail poly_fail ≠
          ERROR_SMALL ∧
        MMM2D_tune_near box_l_y max_near min_far uxLy boxl_limit bessel_fail poly_fail ≠
          ERROR_BOXL) := by
  refine ⟨?_, ?_, ?_, ?_⟩
  · intro h1
    unfold MMM2D_tune_near
    rw [if_pos h1]
  · intro h1 h2
    unfold MMM2D_tune_near
    rw [if_neg (not_lt.mpr h1), if_pos h2]
  · intro h1 h2 h3
    unfold MMM2D_tune_near
    rw [if_neg (not_lt.mpr h1), if_neg (not_lt.mpr h2), if_pos h3]
  · intro h1 h2 h3
    unfold MMM2D_tune_near
    rw [if_neg (not_lt.mpr h1), if_neg (not_lt.mpr h2), if_neg (not_le.mpr h3)]
    unfold ERROR_LARGE ERROR_SMALL ERROR_BOXL ERROR_BESSEL ERROR_POLY
    split_ifs <;> refine ⟨by norm_num, by norm_num, by norm_num⟩

/-- Witness for the C7 theorem: a geometry violating the box-aspect
precondition yields ERROR_BOXL. -/
theorem MMM2D_tune_near_spec_witness :
    MMM2D_tune_near 4 1 0 3 2 false false = ERROR_BOXL :=
  (MMM2D_tune_near_spec 4 1 0 3 2 false false).2.2.1
    (by norm_num) (by norm_num) (by norm_num)

/-! ## MD integrator (src/core/integrate.cpp) -/

/-- The three integrator modes selected by integ_switch. -/
inductive IntegSwitch where
  | nvt
  | npt_iso
  | steepest_descent
deriving DecidableEq, Repr

/-- Line 183 of integrate.cpp: the Verlet list criterion constant
skin2 = Utils::sqr(0.5 * skin) computed at the start of integrate_vv. -/
def integrate_skin2 (skin : ℚ) : ℚ := ((1 / 2) * skin) ^ 2

/-- A particle as seen by propagate_vel_pos: position, position cached at
the last resort (p.l.p_old), velocity, force, mass, the per-axis
COORD_FIXED flags and the virtual-site flag. -/
structure VVParticle where
  p : Vec3
  p_old : Vec3
  v : Vec3
  f : Vec3
  mass : ℚ
  fixed0 : Bool
  fixed1 : Bool
  fixed2 : Bool
  is_virtual : Bool
deriving DecidableEq, Repr

/-- Velocity half-kick of one axis in propagate_vel_pos:
v += 0.5 dt f / m unless the axis is fixed. -/
def vv_new_v (dt mass : ℚ) (fixedj : Bool) (vj fj : ℚ) : ℚ :=
  if fixedj then vj else vj + (1 / 2) * dt * fj / mass

/-- Position drift of one axis in propagate_vel_pos: p += dt v (with the
freshly kicked velocity) unless the axis is fixed. -/
def vv_new_p (dt mass : ℚ) (fixedj : Bool) (pj vj fj : ℚ) : ℚ :=
  if fixedj then pj else pj + dt * vv_new_v dt mass fixedj vj fj

/-- propagate_vel_pos for one particle (the NVT combined step 1 and 2),
returning the updated particle and whether this particle requested a local
resort through the Verlet criterion check
sqr(p.x−p_old.x)+sqr(p.y−p_old.y)+sqr(p.z−p_old.z) > skin2.  A virtual
particle is skipped entirely (continue), including the Verlet check. -/
def propagate_vel_pos (dt skin2 : ℚ) (part : VVParticle) : VVParticle × Bool :=
  if part.is_virtual then
    (part, false)
  else
    let part2 : VVParticle :=
      { part with
        v := ⟨vv_new_v dt part.mass part.fixed0 part.v.x part.f.x,
              vv_new_v dt part.mass part.fixed1 part.v.y part.f.y,
              vv_new_v dt part.mass part.fixed2 part.v.z part.f.z⟩,
        p := ⟨vv_new_p dt part.mass part.fixed0 part.p.x part.v.x part.f.x,
              vv_new_p dt part.mass part.fixed1 part.p.y part.v.y part.f.y,
              vv_new_p dt part.mass part.fixed2 part.p.z part.v.z part.f.z⟩ }
    (part2, decide (skin2 < (part2.p - part.p_old).norm2))

/-- Concrete particle for the C1 counterexample: at rest (zero velocity and
force), already displaced by 3/2 from its last-resort position. -/
def verletCexParticle : VVParticle :=
  ⟨⟨3 / 2, 0, 0⟩, ⟨0, 0, 0⟩, ⟨0, 0, 0⟩, ⟨0, 0, 0⟩, 1, false, false, false, false⟩

/-- Claim C1, counterexample: with skin = 2 a particle whose drift from
p_old is 3/2 — at most the skin — nevertheless sets the local resort flag,
because integrate_vv compares against sqr(0.5·skin), not sqr(skin): the
threshold is half the skin.  The claim asserts the flag is not set for any
drift of at most the skin. -/
theorem verlet_resort_below_skin_cex :
    (propagate_vel_pos 1 (integrate_skin2 2) verletCexParticle).2 = true ∧
    ((propagate_vel_pos 1 (integrate_skin2 2) verletCexParticle).1.p -
        verletCexParticle.p_old).norm2 ≤ 2 ^ 2 := by
  unfold propagate_vel_pos integrate_skin2 verletCexParticle vv_new_p vv_new_v
  norm_num [Vec3.sub_def, Vec3.norm2, Vec3.dot]

/-- Claim C1, amended: during NVT integration a non-virtual particle's move
sets the local resort flag exactly when its squared drift from the
last-resort position p_old exceeds (skin/2)², i.e. the drift threshold is
half the skin (skin2 = sqr(0.5·skin) at integrate.cpp line 183), not the
full skin. -/
theorem propagate_vel_pos_resort_spec (dt skin : ℚ) (part : VVParticle)
    (hv : part.is_virtual = false) :
    ((propagate_vel_pos dt (integrate_skin2 skin) part).2 = true ↔
      (skin / 2) ^ 2 <
        ((propagate_vel_pos dt (integrate_skin2 skin) part).1.p - part.p_old).norm2) := by
  unfold propagate_vel_pos
  rw [if_neg (by simp [hv])]
  simp only [decide_eq_true_eq]
  have h2 : integrate_skin2 skin = (skin / 2) ^ 2 := by
    unfold integrate_skin2; ring
  rw [h2]

/-- Witness for the amended C1 theorem: the counterexample particle (drift
3/2 with skin 2, so squared drift 9/4 > 1 = (skin/2)²) sets the flag. -/
theorem propagate_vel_pos_resort_spec_witness :
    (propagate_vel_pos 1 (integrate_skin2 2) verletCexParticle).2 = true :=
  (propagate_vel_pos_resort_spec 1 2 verletCexParticle rfl).mpr (by
    unfold propagate_vel_pos verletCexParticle vv_new_p vv_new_v
    norm_num [Vec3.sub_def, Vec3.norm2, Vec3.dot])

/-- The result of the volume / scale-factor part of
propagate_press_box_pos_and_rescale_npt executed on rank 0. -/
structure NptVolResult where
  diagnostic : Bool
  volume : ℚ
  scal0 : ℚ
  scal1 : ℚ
  scal2 : ℚ
deriving Repr

/-- The rank-0 volume update of propagate_press_box_pos_and_rescale_npt
(integrate.cpp lines 480-500).  powfn abstracts the C library pow (used with
the non-integral exponents 2/dimension and 1/dimension, irrational in
general); box_l is the current box edge-length vector; L_ncd the edge length
of the non-constant dimension. -/
def propagate_press_box_volume_update (powfn : ℚ → ℚ → ℚ)
    (volume inv_piston p_diff dt dimension : ℚ) (box_l : Vec3) (L_ncd : ℚ) :
    NptVolResult :=
  let v1 := volume + inv_piston * p_diff * (1 / 2) * dt
  let scal2 := L_ncd ^ 2 / powfn v1 (2 / dimension)
  let v2 := v1 + inv_piston * p_diff * (1 / 2) * dt
  let res : Bool × ℚ × ℚ :=
    if v2 < 0 then (true, box_l.x * box_l.y * box_l.z, 1)
    else (false, v2, scal2)
  let L_new := powfn res.2.1 (1 / dimension)
  { diagnostic := res.1, volume := res.2.1,
    scal0 := 1 / (L_new / L_ncd), scal1 := L_new / L_ncd, scal2 := res.2.2 }

/-- Claim C3: whenever the piston volume after the two half-steps of
inv_piston·p_diff·0.5·dt is negative, the NPT position/box update reports a
diagnostic, resets the volume to the product of the three current box edge
lengths, and forces the scale factor to 1; with positive box edge lengths
the volume carried forward is therefore positive, and when the two
half-steps leave the volume nonnegative no diagnostic is raised. -/
theorem npt_volume_guard_spec (powfn : ℚ → ℚ → ℚ)
    (volume inv_piston p_diff dt dimension : ℚ) (box_l : Vec3) (L_ncd : ℚ) :
    (volume + inv_piston * p_diff * (1 / 2) * dt + inv_piston * p_diff * (1 / 2) * dt < 0 →
      (propagate_press_box_volume_update powfn volume inv_piston p_diff dt dimension
          box_l L_ncd).diagnostic = true ∧
      (propagate_press_box_volume_update powfn volume inv_piston p_diff dt dimension
          box_l L_ncd).volume = box_l.x * box_l.y * box_l.z ∧
      (propagate_press_box_volume_update powfn volume inv_piston p_diff dt dimension
          box_l L_ncd).scal2 = 1 ∧
      (0 < box_l.x → 0 < box_l.y → 0 < box_l.z →
        0 < (propagate_press_box_volume_update powfn volume inv_piston p_diff dt dimension
          box_l L_ncd).volume)) ∧
    (0 ≤ volume + inv_piston * p_diff * (1 / 2) * dt + inv_piston * p_diff * (1 / 2) * dt →
      (propagate_press_box_volume_update powfn volume inv_piston p_diff dt dimension
          box_l L_ncd).diagnostic = false) := by
  constructor
  · intro hneg
    unfold propagate_press_box_volume_update
    simp only [if_pos hneg]
    refine ⟨by trivial, by trivial, by trivial, ?_⟩
    intro hx hy hz
    positivity
  · intro hpos
    unfold propagate_press_box_volume_update
    simp only [if_neg (not_lt.mpr hpos)]

/-- Witness for the C3 theorem: volume 1, inv_piston 1, p_diff −4, dt 1
drives the naive volume to 1 − 4 = −3 < 0, so the guard fires and the
volume is reset to the box volume 2·3·4 = 24. -/
theorem npt_volume_guard_spec_witness :
    (propagate_press_box_volume_update (fun a _ => a) 1 1 (-4) 1 3
        ⟨2, 3, 4⟩ 2).volume = 24 := by
  have h := (npt_volume_guard_spec (fun a _ => a) 1 1 (-4) 1 3 ⟨2, 3, 4⟩ 2).1
    (by norm_num)
  rw [h.2.1]
  norm_num

/-- The simulation-clock advance of one completed step of the integration
loop of integrate_vv (integrate.cpp lines 251-265): NPT and NVT execute
sim_time += time_step, the steepest-descent branch does not touch
sim_time. -/
def integrate_vv_advance_sim_time (s : IntegSwitch) (sim_time time_step : ℚ) : ℚ :=
  match s with
  | IntegSwitch.npt_iso => sim_time + time_step
  | IntegSwitch.steepest_descent => sim_time
  | IntegSwitch.nvt => sim_time + time_step

/-- Claim C10: within the integration loop of integrate_vv, sim_time is
advanced by time_step per completed step exactly in the NVT and NPT modes;
a steepest-descent step leaves sim_time unchanged. -/
theorem integrate_vv_sim_time_spec (sim_time time_step : ℚ) :
    integrate_vv_advance_sim_time IntegSwitch.nvt sim_time time_step =
        sim_time + time_step ∧
    integrate_vv_advance_sim_time IntegSwitch.npt_iso sim_time time_step =
        sim_time + time_step ∧
    integrate_vv_advance_sim_time IntegSwitch.steepest_descent sim_time time_step =
        sim_time := ⟨rfl, rfl, rfl⟩

/-! ## Dipolar P3M influence functions
(dp3m_calc_influence_function_force / dp3m_calc_influence_function_energy) -/

/-- One entry of the g_force table written by
dp3m_calc_influence_function_force at local reciprocal mode (n0, n1, n2)
(mesh loop indices, all nonnegative).  alias_force abstracts the
transcendental aliasing-sum value fak1·fak2 of the generic branch; the two
special-case branches of the source are modelled exactly. -/
def dp3m_g_force_entry (mesh : ℕ) (alias_force : ℕ → ℕ → ℕ → ℚ)
    (n0 n1 n2 : ℕ) : ℚ :=
  if n0 = 0 ∧ n1 = 0 ∧ n2 = 0 then 0
  else if n0 % (mesh / 2) = 0 ∧ n1 % (mesh / 2) = 0 ∧ n2 % (mesh / 2) = 0 then 0
  else alias_force n0 n1 n2

/-- One entry of the g_energy table written by
dp3m_calc_influence_function_energy; same branch structure as the force
table with its own aliasing sum. -/
def dp3m_g_energy_entry (mesh : ℕ) (alias_energy : ℕ → ℕ → ℕ → ℚ)
    (n0 n1 n2 : ℕ) : ℚ :=
  if n0 = 0 ∧ n1 = 0 ∧ n2 = 0 then 0
  else if n0 % (mesh / 2) = 0 ∧ n1 % (mesh / 2) = 0 ∧ n2 % (mesh / 2) = 0 then 0
  else alias_energy n0 n1 n2

/-- Claim C8: both influence-function tables are exactly 0 at the zero mode
and at every mode whose three indices are each divisible by mesh/2 (the
mesh-Nyquist axis-aligned points, which include the zero mode); every other
local mode receives its aliasing-sum value. -/
theorem dp3m_influence_function_zero_modes (mesh : ℕ)
    (alias_force alias_energy : ℕ → ℕ → ℕ → ℚ) (n0 n1 n2 : ℕ) :
    (dp3m_g_force_entry mesh alias_force 0 0 0 = 0 ∧
      dp3m_g_energy_entry mesh alias_energy 0 0 0 = 0) ∧
    (mesh / 2 ∣ n0 → mesh / 2 ∣ n1 → mesh / 2 ∣ n2 →
      dp3m_g_force_entry mesh alias_force n0 n1 n2 = 0 ∧
      dp3m_g_energy_entry mesh alias_energy n0 n1 n2 = 0) ∧
    (¬(mesh / 2 ∣ n0 ∧ mesh / 2 ∣ n1 ∧ mesh / 2 ∣ n2) →
      dp3m_g_force_entry mesh alias_force n0 n1 n2 = alias_force n0 n1 n2 ∧
      dp3m_g_energy_entry mesh alias_energy n0 n1 n2 = alias_energy n0 n1 n2) := by
  have hmod : ∀ k m : ℕ, m ∣ k ↔ k % m = 0 := fun k m => Nat.dvd_iff_mod_eq_zero
  refine ⟨?_, ?_, ?_⟩
  · constructor <;> simp [dp3m_g_force_entry, dp3m_g_energy_entry]
  · intro h0 h1 h2
    rw [hmod] at h0 h1 h2
    constructor <;>
      · simp only [dp3m_g_force_entry, dp3m_g_energy_entry]
        split_ifs with ha hb
        · rfl
        · rfl
        · exact absurd ⟨h0, h1, h2⟩ hb
  · intro hnd
    have hne : ¬(n0 = 0 ∧ n1 = 0 ∧ n2 = 0) := by
      rintro ⟨rfl, rfl, rfl⟩
      exact hnd ⟨Dvd.intro 0 rfl, Dvd.intro 0 rfl, Dvd.intro 0 rfl⟩
    have hnm : ¬(n0 % (mesh / 2) = 0 ∧ n1 % (mesh / 2) = 0 ∧ n2 % (mesh / 2) = 0) := by
      rintro ⟨h0, h1, h2⟩
      exact hnd ⟨(hmod _ _).mpr h0, (hmod _ _).mpr h1, (hmod _ _).mpr h2⟩
    constructor <;>
      · simp only [dp3m_g_force_entry, dp3m_g_energy_entry]
        rw [if_neg hne, if_neg hnm]

/-- Witness for the C8 theorem: with mesh 8, the Nyquist mode (4, 0, 4) has
all indices divisible by mesh/2 = 4 and both tables are zero there. -/
theorem dp3m_influence_function_zero_modes_witness :
    dp3m_g_force_entry 8 (fun _ _ _ => 5) 4 0 4 = 0 ∧
    dp3m_g_energy_entry 8 (fun _ _ _ => 7) 4 0 4 = 0 :=
  (dp3m_influence_function_zero_modes 8 (fun _ _ _ => 5) (fun _ _ _ => 7) 4 0 4).2.1
    (by decide) (by decide) (by decide)

/-! ## Dipolar P3M parameter setter (dp3m_set_params) -/

/-- The dipolar methods distinguished by dp3m_set_params; every method other
than DIPOLAR_P3M and DIPOLAR_MDLC_P3M behaves identically there and is
modelled by the constructor other. -/
inductive DipolarMethod where
  | p3m
  | mdlc_p3m
  | other
deriving DecidableEq, Repr

/-- The fields of the dp3m parameter block touched by dp3m_set_params. -/
structure DP3MParameters where
  r_cut : ℚ
  r_cut_iL : ℚ
  mesh0 : ℤ
  mesh1 : ℤ
  mesh2 : ℤ
  cao : ℤ
  alpha : ℚ
  alpha_L : ℚ
  accuracy : ℚ
deriving DecidableEq, Repr

/-- The global state read and written by dp3m_set_params: the active dipolar
method and the dp3m parameter block. -/
structure DP3MGlobalState where
  method : DipolarMethod
  params : DP3MParameters
deriving DecidableEq, Repr

/-- The method coercion at the top of dp3m_set_params: any method other than
DIPOLAR_P3M and DIPOLAR_MDLC_P3M is switched to DIPOLAR_P3M before any
validation. -/
def dp3m_force_method (s : DP3MGlobalState) : DP3MGlobalState :=
  if s.method ≠ DipolarMethod.p3m ∧ s.method ≠ DipolarMethod.mdlc_p3m then
    { s with method := DipolarMethod.p3m }
  else s

/-- The commit of r_cut, r_cut_iL, mesh and cao performed by dp3m_set_params
after the first three validations succeed (box_l0 is box_geo.length()[0]). -/
def dp3m_commit_rmeshcao (box_l0 r_cut : ℚ) (mesh cao : ℤ)
    (p : DP3MParameters) : DP3MParameters :=
  { p with r_cut := r_cut, r_cut_iL := r_cut * (1 / box_l0),
           mesh0 := mesh, mesh1 := mesh, mesh2 := mesh, cao := cao }

/-- dp3m_set_params.  Returns the error code and the global state after the
call.  Mirrors the source: the method is coerced first; r_cut, mesh, cao are
validated (codes -1, -2, -3) before anything is committed; then r_cut/mesh/
cao are committed; then alpha is committed if positive, or rejected with -4
unless it is the tuning sentinel -1; then accuracy likewise with -5; success
returns 0. -/
def dp3m_set_params (box_l0 : ℚ) (s : DP3MGlobalState) (r_cut : ℚ)
    (mesh cao : ℤ) (alpha accuracy : ℚ) : ℤ × DP3MGlobalState :=
  let s0 := dp3m_force_method s
  if r_cut < 0 then (-1, s0)
  else if mesh < 0 then (-2, s0)
  else if cao < 1 ∨ 7 < cao ∨ mesh < cao then (-3, s0)
  else
    let s1 : DP3MGlobalState :=
      { s0 with params := dp3m_commit_rmeshcao box_l0 r_cut mesh cao s0.params }
    let accuracy_step : DP3MGlobalState → ℤ × DP3MGlobalState := fun t =>
      if 0 ≤ accuracy then (0, { t with params := { t.params with accuracy := accuracy } })
      else if accuracy ≠ -1 then (-5, t)
      else (0, t)
    if 0 < alpha then
      accuracy_step
        { s1 with params := { s1.params with alpha := alpha, alpha_L := alpha * box_l0 } }
    else if alpha ≠ -1 then (-4, s1)
    else accuracy_step s1

theorem dp3m_force_method_params (s : DP3MGlobalState) :
    (dp3m_force_method s).params = s.params := by
  unfold dp3m_force_method
  split_ifs <;> rfl

/-- Concrete pre-call state for the C2 counterexample: some non-P3M dipolar
method with a zeroed parameter block. -/
def dp3mCexState : DP3MGlobalState :=
  ⟨DipolarMethod.other, ⟨0, 0, 0, 0, 0, 0, 0, 0, 0⟩⟩

/-- Claim C2, counterexample: calling dp3m_set_params with the invalid
r_cut = −1 returns the negative code −1, but global state IS mutated: the
dipolar method is switched to DIPOLAR_P3M before any validation, so it no
longer equals its value before the call. -/
theorem dp3m_set_params_mutates_on_invalid :
    (dp3m_set_params 1 dp3mCexState (-1) 8 3 1 (1 / 10)).1 = -1 ∧
    (dp3m_set_params 1 dp3mCexState (-1) 8 3 1 (1 / 10)).2.method = DipolarMethod.p3m ∧
    dp3mCexState.method ≠ DipolarMethod.p3m := by
  unfold dp3m_set_params dp3m_force_method dp3mCexState
  norm_num
  decide

/-- Claim C2, amended: every invalid input to dp3m_set_params is rejected
with a negative error code, but not without side effect: the dipolar method
is first forced to DIPOLAR_P3M whenever it was neither DIPOLAR_P3M nor
DIPOLAR_MDLC_P3M (also on failure), and the invalid-alpha and
invalid-accuracy rejections (codes −4, −5) happen only after r_cut,
r_cut_iL, mesh and cao have already been committed; only the r_cut, mesh
and cao rejections (codes −1, −2, −3) leave the dp3m parameter block
unchanged. -/
theorem dp3m_set_params_invalid_spec (box_l0 : ℚ) (s : DP3MGlobalState)
    (r_cut : ℚ) (mesh cao : ℤ) (alpha accuracy : ℚ) :
    (r_cut < 0 →
      dp3m_set_params box_l0 s r_cut mesh cao alpha accuracy = (-1, dp3m_force_method s)) ∧
    (0 ≤ r_cut → mesh < 0 →
      dp3m_set_params box_l0 s r_cut mesh cao alpha accuracy = (-2, dp3m_force_method s)) ∧
    (0 ≤ r_cut → 0 ≤ mesh → (cao < 1 ∨ 7 < cao ∨ mesh < cao) →
      dp3m_set_params box_l0 s r_cut mesh cao alpha accuracy = (-3, dp3m_force_method s)) ∧
    (0 ≤ r_cut → 0 ≤ mesh → ¬(cao < 1 ∨ 7 < cao ∨ mesh < cao) →
      ¬0 < alpha → alpha ≠ -1 →
      dp3m_set_params box_l0 s r_cut mesh cao alpha accuracy =
        (-4, ⟨(dp3m_force_method s).method,
              dp3m_commit_rmeshcao box_l0 r_cut mesh cao s.params⟩)) ∧
    (0 ≤ r_cut → 0 ≤ mesh → ¬(cao < 1 ∨ 7 < cao ∨ mesh < cao) →
      (0 < alpha ∨ alpha = -1) → accuracy < 0 → accuracy ≠ -1 →
      dp3m_set_params box_l0 s r_cut mesh cao alpha accuracy =
        (-5, ⟨(dp3m_force_method s).method,
              if 0 < alpha then
                { dp3m_commit_rmeshcao box_l0 r_cut mesh cao s.params with
                    alpha := alpha, alpha_L := alpha * box_l0 }
              else dp3m_commit_rmeshcao box_l0 r_cut mesh cao s.params⟩)) ∧
    (dp3m_set_params box_l0 s r_cut mesh cao alpha accuracy).2.method =
      (dp3m_force_method s).method := by
  refine ⟨?_, ?_, ?_, ?_, ?_, ?_⟩
  · intro h1
    simp only [dp3m_set_params]
    rw [if_pos h1]
  · intro h1 h2
    simp only [dp3m_set_params]
    rw [if_neg (not_lt.mpr h1), if_pos h2]
  · intro h1 h2 h3
    simp only [dp3m_set_params]
    rw [if_neg (not_lt.mpr h1), if_neg (not_lt.mpr h2), if_pos h3]
  · intro h1 h2 h3 h4 h5
    simp only [dp3m_set_params]
    rw [if_neg (not_lt.mpr h1), if_neg (not_lt.mpr h2), if_neg h3, if_neg h4, if_pos h5]
    rw [show (dp3m_force_method s).params = s.params from dp3m_force_method_params s]
  · intro h1 h2 h3 h4 h5 h6
    simp only [dp3m_set_params]
    rw [if_neg (not_lt.mpr h1), if_neg (not_lt.mpr h2), if_neg h3]
    rcases h4 with h4 | h4
    · rw [if_pos h4, if_neg (not_le.mpr h5), if_pos h6, if_pos h4,
        show (dp3m_force_method s).params = s.params from dp3m_force_method_params s]
    · rw [if_neg (show ¬(0 : ℚ) < alpha by rw [h4]; norm_num),
        if_neg (not_not.mpr h4), if_neg (not_le.mpr h5), if_pos h6,
        if_neg (show ¬(0 : ℚ) < alpha by rw [h4]; norm_num),
        show (dp3m_force_method s).params = s.params from dp3m_force_method_params s]
  · simp only [dp3m_set_params]
    split_ifs <;> rfl

/-- Witness for the amended C2 theorem: with a negative r_cut the call
returns −1 and the state with the method coerced. -/
theorem dp3m_set_params_invalid_spec_witness :
    dp3m_set_params 1 ⟨DipolarMethod.p3m, ⟨1, 1, 4, 4, 4, 3, 1, 1, 1⟩⟩ (-2) 4 2 1 1 =
      (-1, dp3m_force_method ⟨DipolarMethod.p3m, ⟨1, 1, 4, 4, 4, 3, 1, 1, 1⟩⟩) :=
  (dp3m_set_params_invalid_spec 1 ⟨DipolarMethod.p3m, ⟨1, 1, 4, 4, 4, 3, 1, 1, 1⟩⟩
    (-2) 4 2 1 1).1 (by norm_num)

/-! ## Affinity bond model (add_affinity_pair_force) -/

/-- The bond-existence check of add_affinity_pair_force: every component of
the bond_site vector is ≥ 0 (the unbonded sentinel is (−1,−1,−1)). -/
def affinity_bonded (bond_site : Vec3) : Bool :=
  decide (0 ≤ bond_site.x) && decide (0 ≤ bond_site.y) && decide (0 ≤ bond_site.z)

/-- The scalar factor fac computed by each variant of
add_affinity_pair_force once a bond exists, as a function of the bond
length len = |bond_site − unfolded_pos|: variants 1 and 2 use
kappa·(len−r0) above r0, variant 3 folds the 1/len projection into fac,
variant 4 uses kappa·len unconditionally, variants 5 and 6 use the shifted
rest lengths 0.75·r0 and 1.0·r0. -/
def affinity_fac (aff_type : ℕ) (kappa r0 len : ℚ) : ℚ :=
  if aff_type = 1 then (if r0 < len then kappa * (len - r0) else 0)
  else if aff_type = 2 then (if r0 < len then kappa * (len - r0) else 0)
  else if aff_type = 3 then (if r0 < len then kappa * (len - r0) / len else 0)
  else if aff_type = 4 then kappa * len
  else if aff_type = 5 then
    (if (3 / 4) * r0 < len then kappa * (len - (3 / 4) * r0) else 0)
  else if aff_type = 6 then
    (if 1 * r0 < len then kappa * (len - 1 * r0) else 0)
  else 0

/-- The restoring-force contribution one call of add_affinity_pair_force
adds to the accumulated force, for the extracted variant aff_type.  vec is
bond_site − unfolded_pos and len stands for its Euclidean norm; dist is the
pair distance passed in by the caller.  Every variant guards on
dist < cut, dist > 0 and the bond-existence check; variant 3 applies fac
directly (the 1/len is already inside fac), all others apply fac/len. -/
def add_affinity_pair_force (aff_type : ℕ) (kappa r0 cut : ℚ)
    (bond_site unfolded_pos : Vec3) (dist len : ℚ) : Vec3 :=
  if dist < cut ∧ 0 < dist ∧ affinity_bonded bond_site = true then
    if aff_type = 3 then
      affinity_fac 3 kappa r0 len • (bond_site - unfolded_pos)
    else
      (affinity_fac aff_type kappa r0 len / len) • (bond_site - unfolded_pos)
  else 0

/-- The rest-length reference of each variant as stated by the
specification: r0 for variants 1-3, 0 for variant 4, 0.75·r0 for variant 5
and 1.0·r0 for variant 6. -/
def affinity_rest_ref (aff_type : ℕ) (r0 : ℚ) : ℚ :=
  if aff_type = 4 then 0
  else if aff_type = 5 then (3 / 4) * r0
  else r0

theorem affinity_fac_nonneg (aff_type : ℕ) (kappa r0 len : ℚ)
    (hk : 0 ≤ kappa) (hl : 0 ≤ len) : 0 ≤ affinity_fac aff_type kappa r0 len := by
  unfold affinity_fac
  split_ifs <;> first
    | exact le_refl 0
    | exact mul_nonneg hk hl
    | exact mul_nonneg hk (by linarith)
    | exact div_nonneg (mul_nonneg hk (by linarith)) hl

theorem affinity_fac_eq_zero (aff_type : ℕ) (kappa r0 len : ℚ)
    (h1 : 1 ≤ aff_type) (h6 : aff_type ≤ 6) (hl : 0 ≤ len)
    (hno : ¬ affinity_rest_ref aff_type r0 < len) :
    affinity_fac aff_type kappa r0 len = 0 ∨ (aff_type = 4 ∧ len = 0) := by
  have hlen : aff_type = 4 → len = 0 := by
    intro h4
    have : ¬(0 : ℚ) < len := by
      simpa [affinity_rest_ref, h4] using hno
    linarith
  interval_cases aff_type
  · exact Or.inl (by simp_all [affinity_fac, affinity_rest_ref])
  · exact Or.inl (by simp_all [affinity_fac, affinity_rest_ref])
  · exact Or.inl (by simp_all [affinity_fac, affinity_rest_ref])
  · exact Or.inr ⟨rfl, hlen rfl⟩
  · exact Or.inl (by simp_all [affinity_fac, affinity_rest_ref])
  · exact Or.inl (by simp_all [affinity_fac, affinity_rest_ref])

/-- Claim C9: in add_affinity_pair_force, for each of the six variants, the
force contribution is c·vec for some scalar c ≥ 0 pointing toward the bond
site (the bond only pulls, never pushes), and the contribution vanishes
whenever no bond exists or the bond length does not exceed the variant's
rest-length reference (r0 for variants 1-3, 0 for variant 4, 0.75·r0 for
variant 5, 1.0·r0 for variant 6). -/
theorem add_affinity_pair_force_spec (aff_type : ℕ) (kappa r0 cut : ℚ)
    (bond_site unfolded_pos : Vec3) (dist len : ℚ)
    (htl : 1 ≤ aff_type) (hth : aff_type ≤ 6)
    (hk : 0 ≤ kappa) (hl : 0 ≤ len) :
    (¬(affinity_bonded bond_site = true ∧ affinity_rest_ref aff_type r0 < len) →
      add_affinity_pair_force aff_type kappa r0 cut bond_site unfolded_pos dist len = 0) ∧
    (∃ c : ℚ, 0 ≤ c ∧
      add_affinity_pair_force aff_type kappa r0 cut bond_site unfolded_pos dist len =
        c • (bond_site - unfolded_pos)) := by
  constructor
  · intro hno
    unfold add_affinity_pair_force
    split_ifs with hg h3
    · -- variant 3, guard holds: the bond exists, so the length bound fails
      have hb : affinity_bonded bond_site = true := hg.2.2
      have hnl : ¬ affinity_rest_ref aff_type r0 < len := fun hlt => hno ⟨hb, hlt⟩
      rcases affinity_fac_eq_zero aff_type kappa r0 len htl hth hl hnl with hz | ⟨h4, -⟩
      · rw [h3] at hz
        rw [hz, Vec3.zero_smul]
      · exact absurd h4 (by rw [h3]; norm_num)
    · have hb : affinity_bonded bond_site = true := hg.2.2
      have hnl : ¬ affinity_rest_ref aff_type r0 < len := fun hlt => hno ⟨hb, hlt⟩
      rcases affinity_fac_eq_zero aff_type kappa r0 len htl hth hl hnl with hz | ⟨-, hlen0⟩
      · rw [hz, zero_div, Vec3.zero_smul]
      · rw [hlen0, div_zero, Vec3.zero_smul]
    · rfl
  · unfold add_affinity_pair_force
    split_ifs with hg h3
    · exact ⟨affinity_fac 3 kappa r0 len, affinity_fac_nonneg 3 kappa r0 len hk hl, rfl⟩
    · refine ⟨affinity_fac aff_type kappa r0 len / len, ?_, rfl⟩
      exact div_nonneg (affinity_fac_nonneg aff_type kappa r0 len hk hl) hl
    · exact ⟨0, le_refl 0, (Vec3.zero_smul _).symm⟩

/-- Witness for the C9 theorem: variant 2 with an unbonded particle
(bond_site at the sentinel (−1,−1,−1)) contributes no force. -/
theorem add_affinity_pair_force_spec_witness :
    add_affinity_pair_force 2 1 1 10 ⟨-1, -1, -1⟩ ⟨0, 0, 0⟩ 1 2 = 0 :=
  (add_affinity_pair_force_spec 2 1 1 10 ⟨-1, -1, -1⟩ ⟨0, 0, 0⟩ 1 2
      (by norm_num) (by norm_num) (by norm_num) (by norm_num)).1
    (by intro h; exact absurd h.1 (by decide))
